import Mathlib

/-!
Shallow embedding of the event-registration Telegram bot (`bot.py`) and
verification of its specification claims.

The Python source is a single file.  We embed the handlers of the
registration conversation (`get_name`, `get_phone`, `get_username`,
`get_source`, `cancel`), the weekday helper (`get_weekday`), the admin
handlers (`admin`, `admin_callback`, `admin_set_date`, `admin_set_time`,
`admin_set_location`, `admin_broadcast_message`, `admin_set_message`,
`admin_cancel`), and the settings persistence (`load_settings`,
`save_settings`).  Python strings are Lean `String`s; Python `datetime`
values are modelled by `PyDateTime` below; the settings JSON file is
modelled as an optional JSON object with three optional keys; message
sending is modelled by recording the outgoing replies, and broadcast
delivery outcomes by a boolean-valued oracle.
-/

namespace RaveBot

/-! ## Python string primitives -/

/-- ASCII decimal digit test: models Python `str.isdigit` / regex `\d`
restricted to the ASCII digits (the only digits relevant here). -/
def isDigitChar (c : Char) : Bool :=
  48 ≤ c.toNat && c.toNat ≤ 57

/-- ASCII whitespace test: models the characters removed by Python
`str.strip`. -/
def isSpaceChar (c : Char) : Bool :=
  c == ' ' || c == '\t' || c == '\n' || c == '\r' || c == '\x0b' || c == '\x0c'

/-- Models Python `str.strip`: drop leading and trailing whitespace. -/
def pyStrip (s : String) : String :=
  ⟨(((s.data.dropWhile isSpaceChar).reverse.dropWhile isSpaceChar).reverse)⟩

/-- Models Python `str.lower` on the characters that occur in this bot:
ASCII letters and the Cyrillic block used by the Ukrainian texts
(`А`–`Я` maps down by 0x20, `Ѐ`–`Џ` — which contains `Є`, `І`, `Ї` —
maps down by adding 0x50, and `Ґ` maps to `ґ`). -/
def pyLowerChar (c : Char) : Char :=
  if 65 ≤ c.toNat ∧ c.toNat ≤ 90 then Char.ofNat (c.toNat + 32)
  else if 0x410 ≤ c.toNat ∧ c.toNat ≤ 0x42F then Char.ofNat (c.toNat + 32)
  else if 0x400 ≤ c.toNat ∧ c.toNat ≤ 0x40F then Char.ofNat (c.toNat + 80)
  else if c.toNat = 0x490 then Char.ofNat 0x491
  else c

/-- Models Python `str.lower` (characterwise). -/
def pyLower (s : String) : String :=
  ⟨s.data.map pyLowerChar⟩

/-- `startsWithList s p`: the char list `s` starts with the pattern `p`;
models Python `str.startswith`. -/
def startsWithList : List Char → List Char → Bool
  | _, [] => true
  | [], _ :: _ => false
  | c :: cs, p :: ps => c == p && startsWithList cs ps

/-! ## Phone normalisation and validation (`get_phone`, bot.py 313–333) -/

/-- The characters kept by `re.sub(r"[^\d+]", "", phone)`: digits and `+`. -/
def isPhoneKeepChar (c : Char) : Bool :=
  isDigitChar c || c == '+'

/-- `re.sub(r"[^\d+]", "", phone)` followed by
`if not phone.startswith("+"): phone = "+" + phone`. -/
def normalizePhone (s : String) : String :=
  let t := s.data.filter isPhoneKeepChar
  if startsWithList t ['+'] then ⟨t⟩ else ⟨'+' :: t⟩

/-- Models Python `str.isdigit` on a char list: nonempty and all digits. -/
def isDigitStr (l : List Char) : Bool :=
  !l.isEmpty && l.all isDigitChar

/-- The check `phone.startswith("+380") and len(phone) == 13 and
phone[1:].isdigit()` from `get_phone`. -/
def validPhone (p : String) : Bool :=
  startsWithList p.data ['+', '3', '8', '0'] && p.length == 13
    && isDigitStr (p.data.drop 1)

/-! ## Registration conversation state machine -/

/-- The registration conversation states `NAME, PHONE, USERNAME, SOURCE`
(bot.py line 226). -/
inductive RegState
  | NAME
  | PHONE
  | USERNAME
  | SOURCE
deriving DecidableEq, Repr

/-- A handler's returned state: either a registration state or
`ConversationHandler.END`. -/
inductive NextState
  | toState (s : RegState)
  | endConv
deriving DecidableEq, Repr

/-- `context.user_data`: the accumulated partial registration fields. -/
structure RegData where
  name : Option String
  phone : Option String
  username : Option String
  source : Option String
deriving DecidableEq, Repr

/-- What one handler invocation does: the messages sent back, the
`user_data` afterwards, the returned conversation state, and the record
passed to `store_registration` (the external tabular store), if any. -/
structure StepResult where
  replies : List String
  data : RegData
  next : NextState
  stored : Option RegData
deriving DecidableEq, Repr

/-- PHONE-state input: either a shared contact card or free text
(`Filters.contact | (Filters.text & ~Filters.command)`). -/
inductive PhoneInput
  | contact (phoneNumber : String)
  | text (s : String)
deriving DecidableEq, Repr

/-- The raw phone string the handler extracts from the input before
normalisation: `update.message.contact.phone_number` for a contact,
`update.message.text` for free text. -/
def inputRaw : PhoneInput → String
  | .contact p => p
  | .text s => s

/-- Whether a PHONE-state input triggers the in-handler cancellation
check (`phone.lower() == "відміна"`, applied only on the text path). -/
def isCancelInput : PhoneInput → Bool
  | .contact _ => false
  | .text s => pyLower (pyStrip s) == "відміна"

/-- `cancel` (bot.py 378–380): acknowledge and end; `user_data` untouched,
nothing stored. -/
def cancel (data : RegData) : StepResult :=
  { replies := ["Реєстрацію скасовано."]
    data := data
    next := .endConv
    stored := none }

/-- `get_name` (bot.py 299–311). -/
def get_name (data : RegData) (user_text : String) : StepResult :=
  if pyLower (pyStrip user_text) == "відміна" then cancel data
  else
    { replies := ["Введіть номер телефону або поділіться контактом:"]
      data := { data with name := some user_text }
      next := .toState .PHONE
      stored := none }

/-- The re-prompt sent by `get_phone` on validation failure. -/
def phoneRePrompt : String :=
  "Будь ласка, введіть коректний номер телефону у форматі +380XXXXXXXXX."

/-- The normalisation-and-validation tail of `get_phone` (bot.py 321–333),
applied to the raw phone string. -/
def get_phone_validate (data : RegData) (raw : String) : StepResult :=
  let phone := normalizePhone raw
  if validPhone phone then
    { replies := ["Введіть ваш Telegram нік (через @):"]
      data := { data with phone := some phone }
      next := .toState .USERNAME
      stored := none }
  else
    { replies := [phoneRePrompt]
      data := data
      next := .toState .PHONE
      stored := none }

/-- `get_phone` (bot.py 313–333): contact cards are used directly; free
text is stripped and checked against the cancellation keyword first. -/
def get_phone (data : RegData) (inp : PhoneInput) : StepResult :=
  match inp with
  | .contact pn => get_phone_validate data pn
  | .text s =>
      let phone := pyStrip s
      if pyLower phone == "відміна" then cancel data
      else get_phone_validate data phone

/-- `get_username` (bot.py 335–350). -/
def get_username (data : RegData) (inp : String) : StepResult :=
  let username := pyStrip inp
  if pyLower username == "відміна" then cancel data
  else if !startsWithList username.data ['@'] then
    { replies := ["Будь ласка, введіть ваш Telegram нік, який починається з @."]
      data := data
      next := .toState .USERNAME
      stored := none }
  else
    { replies :=
        ["Де ви побачили інформацію про вечірку?\n" ++
         "(наприклад: інстаграм реклама, інстаграм сторінка, телеграм канал Холі, інший телеграм канал)"]
      data := { data with username := some username }
      next := .toState .SOURCE
      stored := none }

/-- The two messages `get_source` sends after storing the registration. -/
def sourceThanks : String :=
  "Дякуємо за реєстрацію, чекаємо вас на вході для перевірки інформації 🫶🏻"

/-- The social-links message sent at the end of `get_source`. -/
def socialText : String :=
  "Залишайся з ботом до самої вечірки, адже через нього тобі будуть надходити важливі повідомлення!\n\n" ++
  "Підпишись на наші соціальні мережі та будь в курсі новин 👇🏻"

/-- `get_source` (bot.py 352–376): on non-cancel input stores the full
accumulated record via `store_registration` and ends the conversation. -/
def get_source (data : RegData) (inp : String) : StepResult :=
  let source := pyStrip inp
  if pyLower source == "відміна" then cancel data
  else
    let d := { data with source := some source }
    { replies := [sourceThanks, socialText]
      data := d
      next := .endConv
      stored := some d }

/-! ## Datetime model and `get_weekday` (bot.py 188–214) -/

/-- A Python `datetime.datetime` value: a calendar date plus a time of
day (`tod`, in any fixed sub-day unit; `0` is midnight, which is what
`datetime.datetime(year, month, day)` constructs). -/
structure PyDateTime where
  year : Int
  month : Int
  day : Int
  tod : Nat
deriving DecidableEq, Repr

/-- Python `datetime` comparison: lexicographic on
(year, month, day, time of day). -/
def dtLt (a b : PyDateTime) : Bool :=
  a.year < b.year ||
    (a.year == b.year && (a.month < b.month ||
      (a.month == b.month && (a.day < b.day ||
        (a.day == b.day && a.tod < b.tod)))))

/-- Gregorian leap-year rule, as used by Python `datetime`. -/
def isLeapYear (y : Int) : Bool :=
  y % 4 == 0 && (y % 100 != 0 || y % 400 == 0)

/-- Number of days in month `m` of year `y` (0 for an out-of-range month). -/
def daysInMonth (y m : Int) : Int :=
  if m == 1 then 31
  else if m == 2 then (if isLeapYear y then 29 else 28)
  else if m == 3 then 31
  else if m == 4 then 30
  else if m == 5 then 31
  else if m == 6 then 30
  else if m == 7 then 31
  else if m == 8 then 31
  else if m == 9 then 30
  else if m == 10 then 31
  else if m == 11 then 30
  else if m == 12 then 31
  else 0

/-- Whether `datetime.datetime(y, m, d)` succeeds (Python requires
`MINYEAR = 1 ≤ y ≤ 9999 = MAXYEAR`). -/
def isValidDate (y m d : Int) : Bool :=
  1 ≤ y && y ≤ 9999 && 1 ≤ m && m ≤ 12 && 1 ≤ d && d ≤ daysInMonth y m

/-- Days in all years strictly before year `y` (proleptic Gregorian),
as in CPython's `_days_before_year`.  Only used for `y ≥ 1`, where
Lean's `Int` division agrees with Python's floor division. -/
def daysBeforeYear (y : Int) : Int :=
  365 * (y - 1) + (y - 1) / 4 - (y - 1) / 100 + (y - 1) / 400

/-- Days in year `y` strictly before month `m` (months counted from 1). -/
def daysBeforeMonth (y : Int) : Nat → Int
  | 0 => 0
  | n + 1 => daysBeforeMonth y n + daysInMonth y n

/-- CPython's `_ymd2ord`: the proleptic-Gregorian ordinal of a date,
with 0001-01-01 having ordinal 1. -/
def toOrdinal (y m d : Int) : Int :=
  daysBeforeYear y + daysBeforeMonth y m.toNat + d

/-- Python `date.weekday()`: Monday is 0.  0001-01-01 (ordinal 1) was a
Monday. -/
def pyWeekday (y m d : Int) : Int :=
  (toOrdinal y m d + 6) % 7

/-- The sentinel returned by `get_weekday` for unparseable or invalid
dates ("невідомий день", "unknown day"). -/
def unknownDay : String := "невідомий день"

/-- The `weekdays` dictionary lookup `weekdays.get(k, "невідомий день")`
from `get_weekday`. -/
def weekdayNames (k : Int) : String :=
  if k == 0 then "понеділок"
  else if k == 1 then "вівторок"
  else if k == 2 then "середу"
  else if k == 3 then "четвер"
  else if k == 4 then "п’ятницю"
  else if k == 5 then "суботу"
  else if k == 6 then "неділю"
  else unknownDay

/-- Fold a digit list into the number it denotes. -/
def digitsToNat (l : List Char) : Nat :=
  l.foldl (fun a c => a * 10 + (c.toNat - 48)) 0

/-- Models Python `int(s)` on a string: optional surrounding whitespace,
optional sign, then one or more ASCII digits; `none` when `int` would
raise `ValueError`. -/
def pyInt (s : String) : Option Int :=
  match (pyStrip s).data with
  | [] => none
  | '+' :: rest =>
      if !rest.isEmpty && rest.all isDigitChar then some (digitsToNat rest : Nat) else none
  | '-' :: rest =>
      if !rest.isEmpty && rest.all isDigitChar then some (-(digitsToNat rest : Nat)) else none
  | l =>
      if l.all isDigitChar then some (digitsToNat l : Nat) else none

/-- Python `s.split('.')` on a char list. -/
def splitOnDot : List Char → List (List Char)
  | [] => [[]]
  | c :: rest =>
      let r := splitOnDot rest
      if c == '.' then [] :: r
      else
        match r with
        | [] => [[c]]
        | h :: t => (c :: h) :: t

/-- `day, month = map(int, date_str.split('.'))`: succeeds exactly when
the split yields two pieces and both parse as integers. -/
def parseDayMonth (s : String) : Option (Int × Int) :=
  match splitOnDot s.data with
  | [a, b] =>
      match pyInt ⟨a⟩, pyInt ⟨b⟩ with
      | some d, some m => some (d, m)
      | _, _ => none
  | _ => none

/-- `get_weekday` (bot.py 188–214), with `datetime.datetime.now()`
passed explicitly.  A `ValueError` from `datetime.datetime(year, month,
day)` yields the sentinel; a `ValueError` from the next-year
construction is swallowed (`pass`), keeping the current-year date. -/
def get_weekday (now : PyDateTime) (date_str : String) : String :=
  match parseDayMonth date_str with
  | none => unknownDay
  | some (d, m) =>
      let year := now.year
      if isValidDate year m d then
        let ev : PyDateTime := ⟨year, m, d, 0⟩
        let ev2 :=
          if dtLt ev now then
            (if isValidDate (year + 1) m d then (⟨year + 1, m, d, 0⟩ : PyDateTime) else ev)
          else ev
        weekdayNames (pyWeekday ev2.year ev2.month ev2.day)
      else unknownDay

/-! ## Settings persistence (`load_settings` / `save_settings`,
bot.py 91–117) -/

/-- The in-memory settings globals `event_date`, `event_time`,
`event_location`. -/
structure Settings where
  event_date : String
  event_time : String
  event_location : String
deriving DecidableEq, Repr

/-- `default_settings` (bot.py 67–71). -/
def default_settings : Settings :=
  { event_date := "18.02", event_time := "20:00", event_location := "Club XYZ" }

/-- The JSON object persisted in `settings.json`, with each key
optional (read back via `settings.get(key, default)`). -/
structure SettingsJson where
  event_date : Option String
  event_time : Option String
  event_location : Option String
deriving DecidableEq, Repr

/-- The serialised `default_settings` written by `ensure_local_file`. -/
def defaultSettingsJson : SettingsJson :=
  { event_date := some "18.02", event_time := some "20:00", event_location := some "Club XYZ" }

/-- `ensure_local_file` (bot.py 80–88) for the settings file: create it
with the default content when absent.  The file is modelled as
`Option SettingsJson` (`none` = not present). -/
def ensure_local_file (file : Option SettingsJson) (dflt : SettingsJson) : Option SettingsJson :=
  match file with
  | none => some dflt
  | some c => some c

/-- `load_settings` (bot.py 91–104): ensure the file exists, then read
each key with its default.  Returns the file state after the call and
the loaded settings.  (After `ensure_local_file` the file always
exists; the `none` branch is unreachable and mirrors the exception
handler, which leaves everything untouched.) -/
def load_settings (file : Option SettingsJson) : Option SettingsJson × Settings :=
  let file2 := ensure_local_file file defaultSettingsJson
  match file2 with
  | some content =>
      (file2,
        { event_date := content.event_date.getD default_settings.event_date
          event_time := content.event_time.getD default_settings.event_time
          event_location := content.event_location.getD default_settings.event_location })
  | none => (file2, default_settings)

/-- `save_settings` (bot.py 106–117): serialise the complete current
settings object, overwriting the file. -/
def save_settings (s : Settings) : SettingsJson :=
  { event_date := some s.event_date
    event_time := some s.event_time
    event_location := some s.event_location }

/-! ## Admin side (bot.py 383–453, conversation wiring 500–512) -/

/-- `ADMIN_IDS` (bot.py 55). -/
def ADMIN_IDS : List Int := [1124775269, 382701754]

/-- The reply sent by the `/admin` command handler `admin`
(bot.py 383–394): the admin panel for allow-listed callers, a
permission-denied message for everyone else. -/
def admin (user_id : Int) : String :=
  if user_id ∈ ADMIN_IDS then "Адмін панель:"
  else "Ви не маєте доступу до цієї команди."

/-- The admin conversation states (bot.py line 227). -/
inductive AdminState
  | ADMIN_DATE
  | ADMIN_TIME
  | ADMIN_LOCATION
  | ADMIN_BROADCAST
  | ADMIN_EDIT_MESSAGE
deriving DecidableEq, Repr

/-- `admin_callback` (bot.py 396–408): dispatch on the callback data of
the pressed button.  `user_id` is the caller (carried by the update);
`messageText` is the current content of `message.txt` shown by the
edit-message branch.  Returns the reply and the next admin state, or
`none` for unmatched data. -/
def admin_callback (user_id : Int) (messageText : String) (data : String) :
    Option (String × AdminState) :=
  if data == "admin_change" then
    some ("Введіть нову дату заходу (формат дд.мм):", .ADMIN_DATE)
  else if data == "admin_broadcast" then
    some ("Введіть текст повідомлення для розсилки:", .ADMIN_BROADCAST)
  else if data == "admin_edit_message" then
    some ("Поточний текст повідомлення:\n\n" ++ messageText ++
            "\n\nВведіть новий текст повідомлення:", .ADMIN_EDIT_MESSAGE)
  else none

/-- What one admin handler invocation does: the in-memory settings
globals afterwards, the replies sent to the admin, the returned state
(`none` = `ConversationHandler.END`), the settings object written to
`settings.json` (if any), the text written to `message.txt` (if any),
and the user ids to which a broadcast delivery was attempted. -/
structure AdminStepResult where
  ctx : Settings
  replies : List String
  next : Option AdminState
  savedSettings : Option Settings
  savedMessage : Option String
  attempted : List String
deriving DecidableEq, Repr

/-- `admin_set_date` (bot.py 410–414): overwrite the `event_date`
global, prompt for the time; nothing is persisted yet. -/
def admin_set_date (ctx : Settings) (text : String) : AdminStepResult :=
  { ctx := { ctx with event_date := text }
    replies := ["Введіть новий час заходу (формат гг:хх):"]
    next := some .ADMIN_TIME
    savedSettings := none
    savedMessage := none
    attempted := [] }

/-- `admin_set_time` (bot.py 416–420). -/
def admin_set_time (ctx : Settings) (text : String) : AdminStepResult :=
  { ctx := { ctx with event_time := text }
    replies := ["Введіть нову локацію:"]
    next := some .ADMIN_LOCATION
    savedSettings := none
    savedMessage := none
    attempted := [] }

/-- `admin_set_location` (bot.py 422–427): overwrite the location
global, then `save_settings()` persists the full settings object. -/
def admin_set_location (ctx : Settings) (text : String) : AdminStepResult :=
  let ctx2 := { ctx with event_location := text }
  { ctx := ctx2
    replies := ["Інформація про захід оновлена!"]
    next := none
    savedSettings := some ctx2
    savedMessage := none
    attempted := [] }

/-- The broadcast loop of `admin_broadcast_message` (bot.py 434–439):
for each stored user id an individual delivery is attempted; `sendOk`
tells whether it succeeds (an exception is caught and logged, and the
loop continues).  Returns the attempted ids in order and the success
count. -/
def broadcastLoop (users : List String) (sendOk : String → Bool) : List String × Nat :=
  match users with
  | [] => ([], 0)
  | uid :: rest =>
      let r := broadcastLoop rest sendOk
      (uid :: r.1, (if sendOk uid then 1 else 0) + r.2)

/-- The final report `f"Розсилка завершена. Повідомлення відправлено
{count} користувачам."`. -/
def broadcastReport (count : Nat) : String :=
  "Розсилка завершена. Повідомлення відправлено " ++ toString count ++ " користувачам."

/-- `admin_broadcast_message` (bot.py 429–443). -/
def admin_broadcast_message (ctx : Settings) (users : List String)
    (sendOk : String → Bool) (message_text : String) : AdminStepResult :=
  if users.isEmpty then
    { ctx := ctx
      replies := ["Немає користувачів для розсилки."]
      next := none
      savedSettings := none
      savedMessage := none
      attempted := [] }
  else
    let r := broadcastLoop users sendOk
    { ctx := ctx
      replies := [broadcastReport r.2]
      next := none
      savedSettings := none
      savedMessage := none
      attempted := r.1 }

/-- `admin_set_message` (bot.py 445–449): persist the new
pre-registration message text to `message.txt`. -/
def admin_set_message (ctx : Settings) (text : String) : AdminStepResult :=
  { ctx := ctx
    replies := ["Текст повідомлення оновлено!"]
    next := none
    savedSettings := none
    savedMessage := some text
    attempted := [] }

/-- `admin_cancel` (bot.py 451–453). -/
def admin_cancel (ctx : Settings) : AdminStepResult :=
  { ctx := ctx
    replies := ["Адмін операцію скасовано."]
    next := none
    savedSettings := none
    savedMessage := none
    attempted := [] }

/-- An inbound update inside the admin conversation: a command or a
non-command text message. -/
inductive AdminInput
  | command (c : String)
  | text (s : String)
deriving DecidableEq, Repr

/-- The `admin_conv_handler` dispatch (bot.py 501–511): in every state
the single state handler matches `Filters.text & ~Filters.command`, so
a `/cancel` command falls through to the `admin_cancel` fallback; any
other command matches nothing and leaves the conversation state
unchanged. -/
def admin_dispatch (st : AdminState) (ctx : Settings) (users : List String)
    (sendOk : String → Bool) (inp : AdminInput) : AdminStepResult :=
  match inp with
  | .command c =>
      if c == "cancel" then admin_cancel ctx
      else
        { ctx := ctx
          replies := []
          next := some st
          savedSettings := none
          savedMessage := none
          attempted := [] }
  | .text s =>
      match st with
      | .ADMIN_DATE => admin_set_date ctx s
      | .ADMIN_TIME => admin_set_time ctx s
      | .ADMIN_LOCATION => admin_set_location ctx s
      | .ADMIN_BROADCAST => admin_broadcast_message ctx users sendOk s
      | .ADMIN_EDIT_MESSAGE => admin_set_message ctx s

/-! ## Helper lemmas -/

/-- Digits and `+` are fixed points of `pyLowerChar`. -/
theorem pyLowerChar_keep (c : Char) (h : isPhoneKeepChar c = true) : pyLowerChar c = c := by
  have hn : c.toNat = 43 ∨ (48 ≤ c.toNat ∧ c.toNat ≤ 57) := by
    simp only [isPhoneKeepChar, isDigitChar, Bool.or_eq_true, Bool.and_eq_true,
      decide_eq_true_eq, beq_iff_eq] at h
    rcases h with h | h
    · right; exact h
    · left; subst h; rfl
  unfold pyLowerChar
  rw [if_neg (by omega), if_neg (by omega), if_neg (by omega), if_neg (by omega)]

/-- A string whose lowercasing is the cancellation keyword contains no
digit and no `+`. -/
theorem filter_keep_eq_nil_of_cancel (l : List Char)
    (h : l.map pyLowerChar = "відміна".data) :
    l.filter isPhoneKeepChar = [] := by
  rw [List.filter_eq_nil_iff]
  intro a ha hpa
  have h1 : pyLowerChar a = a := pyLowerChar_keep a hpa
  have h2 : a ∈ l.map pyLowerChar := by
    rw [← h1]; exact List.mem_map_of_mem _ ha
  rw [h] at h2
  have hd : ("відміна" : String).data = ['в', 'і', 'д', 'м', 'і', 'н', 'а'] := rfl
  rw [hd] at h2
  fin_cases h2 <;> exact absurd hpa (by decide)

/-- Whitespace characters are neither digits nor `+`. -/
theorem not_keep_of_space (c : Char) (h : isSpaceChar c = true) :
    isPhoneKeepChar c = false := by
  simp only [isSpaceChar, Bool.or_eq_true, beq_iff_eq] at h
  rcases h with (((((h | h) | h) | h) | h) | h) <;> subst h <;> rfl

/-- Dropping leading whitespace does not change the kept characters. -/
theorem filter_keep_dropWhile (l : List Char) :
    (l.dropWhile isSpaceChar).filter isPhoneKeepChar = l.filter isPhoneKeepChar := by
  induction l with
  | nil => rfl
  | cons c cs ih =>
    rw [List.dropWhile_cons]
    by_cases hc : isSpaceChar c = true
    · rw [if_pos hc, ih, List.filter_cons, not_keep_of_space c hc]
      simp
    · rw [if_neg hc]

/-- Python `str.strip` does not change the kept characters. -/
theorem filter_keep_pyStrip (s : String) :
    (pyStrip s).data.filter isPhoneKeepChar = s.data.filter isPhoneKeepChar := by
  show ((((s.data.dropWhile isSpaceChar).reverse.dropWhile isSpaceChar).reverse).filter
      isPhoneKeepChar) = _
  rw [List.filter_reverse, filter_keep_dropWhile, List.filter_reverse,
    List.reverse_reverse, filter_keep_dropWhile]

/-- Normalisation is insensitive to surrounding whitespace. -/
theorem normalizePhone_pyStrip (s : String) :
    normalizePhone (pyStrip s) = normalizePhone s := by
  unfold normalizePhone
  rw [filter_keep_pyStrip]

/-- Text equal (after strip/lower) to the cancellation keyword can never
normalise to a valid phone. -/
theorem validPhone_false_of_cancel (s : String)
    (h : pyLower (pyStrip s) = "відміна") :
    validPhone (normalizePhone s) = false := by
  have hd : (pyStrip s).data.map pyLowerChar = ("відміна" : String).data :=
    congrArg String.data h
  have h0 : (pyStrip s).data.filter isPhoneKeepChar = [] :=
    filter_keep_eq_nil_of_cancel _ hd
  have h1 : s.data.filter isPhoneKeepChar = [] := by
    rw [← filter_keep_pyStrip]; exact h0
  unfold normalizePhone
  rw [h1]
  rfl

/-- The broadcast loop attempts a delivery to every stored user, in
order, regardless of failures. -/
theorem broadcastLoop_fst (users : List String) (sendOk : String → Bool) :
    (broadcastLoop users sendOk).1 = users := by
  induction users with
  | nil => rfl
  | cons u rest ih => simp [broadcastLoop, ih]

/-- Success count plus failure count equals the number of users. -/
theorem broadcastLoop_snd_add (users : List String) (sendOk : String → Bool) :
    (broadcastLoop users sendOk).2 + (users.filter (fun u => !sendOk u)).length
      = users.length := by
  induction users with
  | nil => rfl
  | cons u rest ih =>
    cases hu : sendOk u with
    | true =>
      simp [broadcastLoop, List.filter_cons, hu]
      omega
    | false =>
      simp [broadcastLoop, List.filter_cons, hu]
      omega

/-- `weekdays.get(weekday(), ...)` never falls through to the default:
`weekday()` is always in `0..6`. -/
theorem weekdayNames_pyWeekday_ne (y m d : Int) :
    weekdayNames (pyWeekday y m d) ≠ unknownDay := by
  have h0 : 0 ≤ (toOrdinal y m d + 6) % 7 := Int.emod_nonneg _ (by decide)
  have h7 : (toOrdinal y m d + 6) % 7 < 7 := Int.emod_lt_of_pos _ (by decide)
  have hk : pyWeekday y m d = 0 ∨ pyWeekday y m d = 1 ∨ pyWeekday y m d = 2 ∨
      pyWeekday y m d = 3 ∨ pyWeekday y m d = 4 ∨ pyWeekday y m d = 5 ∨
      pyWeekday y m d = 6 := by
    unfold pyWeekday
    omega
  rcases hk with h | h | h | h | h | h | h <;> rw [h] <;> decide

/-! ## Claim theorems -/

/-- C5: saving the settings object {event date, event time, event
location} and then loading settings again (as after a process restart)
yields exactly the saved values; and when no settings file exists, load
returns the default values and creates the settings file containing the
defaults before load completes. -/
theorem settings_round_trip (s : Settings) :
    load_settings (some (save_settings s)) = (some (save_settings s), s) ∧
    load_settings none = (some defaultSettingsJson, default_settings) :=
  ⟨rfl, rfl⟩

/-- C7: the admin cancel fallback is available from every admin
conversation state and unconditionally ends the admin conversation
without persisting incomplete edits: the `/cancel` command in any state
yields the cancellation acknowledgment, `END`, and no file write, and
the date and time steps of an event-info edit never write the settings
file themselves (only the final location step does). -/
theorem admin_cancel_no_persist (st : AdminState) (ctx : Settings)
    (users : List String) (sendOk : String → Bool) :
    admin_dispatch st ctx users sendOk (.command "cancel") =
      { ctx := ctx
        replies := ["Адмін операцію скасовано."]
        next := none
        savedSettings := none
        savedMessage := none
        attempted := [] } ∧
    (∀ s, (admin_set_date ctx s).savedSettings = none) ∧
    (∀ s, (admin_set_time ctx s).savedSettings = none) :=
  ⟨rfl, fun _ => rfl, fun _ => rfl⟩

/-- C8: entry into the admin conversation via the admin_change /
admin_broadcast / admin_edit_message button callbacks performs no
allow-list check: `admin_callback` returns the same reply and next
state for any two callers with the same callback data; only the
`/admin` command handler checks the caller against `ADMIN_IDS`. -/
theorem admin_callback_no_admin_check :
    (∀ (u v : Int) (mt d : String), admin_callback u mt d = admin_callback v mt d) ∧
    (∀ u : Int, u ∉ ADMIN_IDS → admin u = "Ви не маєте доступу до цієї команди.") ∧
    (∀ u : Int, u ∈ ADMIN_IDS → admin u = "Адмін панель:") := by
  refine ⟨fun u v mt d => rfl, fun u hu => ?_, fun u hu => ?_⟩
  · simp [admin, hu]
  · simp [admin, hu]

/-- Witness for C8 at concrete callers 0 (not an admin) and 1124775269
(an admin). -/
theorem admin_callback_no_admin_check_witness :
    admin_callback 0 "msg" "admin_change" = admin_callback 1124775269 "msg" "admin_change" ∧
    admin 0 = "Ви не маєте доступу до цієї команди." ∧
    admin 1124775269 = "Адмін панель:" :=
  ⟨admin_callback_no_admin_check.1 0 1124775269 "msg" "admin_change",
   admin_callback_no_admin_check.2.1 0 (by decide),
   admin_callback_no_admin_check.2.2 1124775269 (by decide)⟩

/-- C4: when the user registry holds N entries of which M < N individual
deliveries fail, the broadcast attempts delivery to all N users (a
failure never aborts the remaining deliveries), reports the success
count N − M to the admin, and ends the conversation. -/
theorem broadcast_attempts_all_reports_count (ctx : Settings) (users : List String)
    (sendOk : String → Bool) (msg : String)
    (h : (users.filter (fun u => !sendOk u)).length < users.length) :
    (admin_broadcast_message ctx users sendOk msg).attempted = users ∧
    (admin_broadcast_message ctx users sendOk msg).replies
      = [broadcastReport (users.length - (users.filter (fun u => !sendOk u)).length)] ∧
    (admin_broadcast_message ctx users sendOk msg).next = none := by
  have hne : users.isEmpty = false := by
    cases users with
    | nil => simp at h
    | cons a l => rfl
  have h1 := broadcastLoop_fst users sendOk
  have h2 := broadcastLoop_snd_add users sendOk
  have hc : (broadcastLoop users sendOk).2
      = users.length - (users.filter (fun u => !sendOk u)).length := by omega
  unfold admin_broadcast_message
  rw [hne]
  simp only [Bool.false_eq_true, if_false, hc, h1]
  exact ⟨trivial, trivial, trivial⟩

/-- Witness for C4: three users of which the two ≠ "2" fail; all three
attempted and success count 3 − 2 = 1 reported. -/
theorem broadcast_attempts_all_reports_count_witness :
    ((["1", "2", "3"].filter (fun u => !(u == "2"))).length
        < (["1", "2", "3"] : List String).length) ∧
    (admin_broadcast_message default_settings ["1", "2", "3"] (fun u => u == "2") "hi").attempted
      = ["1", "2", "3"] ∧
    (admin_broadcast_message default_settings ["1", "2", "3"] (fun u => u == "2") "hi").replies
      = [broadcastReport ((["1", "2", "3"] : List String).length
          - ((["1", "2", "3"] : List String).filter (fun u => !(u == "2"))).length)] :=
  ⟨by decide,
   (broadcast_attempts_all_reports_count default_settings ["1", "2", "3"]
      (fun u => u == "2") "hi" (by decide)).1,
   (broadcast_attempts_all_reports_count default_settings ["1", "2", "3"]
      (fun u => u == "2") "hi" (by decide)).2.1⟩

/-- C10: when the user registry is empty, a broadcast sends the admin
the dedicated no-users message (which is never equal to any
success-count report) and attempts no delivery; the success count is
reported exactly when the registry is non-empty. -/
theorem broadcast_empty_no_report (ctx : Settings) (sendOk : String → Bool)
    (msg : String) :
    (admin_broadcast_message ctx [] sendOk msg).replies
      = ["Немає користувачів для розсилки."] ∧
    (admin_broadcast_message ctx [] sendOk msg).attempted = [] ∧
    (∀ n : Nat, "Немає користувачів для розсилки." ≠ broadcastReport n) ∧
    (∀ users : List String, users ≠ [] →
      (admin_broadcast_message ctx users sendOk msg).replies
        = [broadcastReport (broadcastLoop users sendOk).2]) := by
  refine ⟨rfl, rfl, fun n h => ?_, fun users hu => ?_⟩
  · have h2 := congrArg String.length h
    rw [show ("Немає користувачів для розсилки." : String).length = 32 from rfl] at h2
    simp only [broadcastReport, String.length_append] at h2
    rw [show ("Розсилка завершена. Повідомлення відправлено " : String).length = 45 from rfl,
      show (" користувачам." : String).length = 14 from rfl] at h2
    omega
  · have hne : users.isEmpty = false := by
      cases users with
      | nil => exact absurd rfl hu
      | cons a l => rfl
    unfold admin_broadcast_message
    rw [hne]
    simp only [Bool.false_eq_true, if_false]

/-- Witness for C10 at an empty registry and the singleton registry
["7"]. -/
theorem broadcast_empty_no_report_witness :
    (admin_broadcast_message default_settings [] (fun _ => true) "m").replies
      = ["Немає користувачів для розсилки."] ∧
    "Немає користувачів для розсилки." ≠ broadcastReport 0 ∧
    (admin_broadcast_message default_settings ["7"] (fun _ => true) "m").replies
      = [broadcastReport (broadcastLoop ["7"] (fun _ => true)).2] :=
  ⟨(broadcast_empty_no_report default_settings (fun _ => true) "m").1,
   (broadcast_empty_no_report default_settings (fun _ => true) "m").2.2.1 0,
   (broadcast_empty_no_report default_settings (fun _ => true) "m").2.2.2 ["7"] (by decide)⟩

/-- C1: for every phone input received at the AWAIT_PHONE step (free
text or a shared contact card) whose normalisation (stripping all
characters except digits and `+`, then prefixing `+` if absent) equals
`+380` followed by exactly 9 digits (13 characters total), `get_phone`
stores exactly that normalised 13-character string as the phone field
and advances the conversation to the AWAIT_USERNAME state. -/
theorem get_phone_valid_stores (data : RegData) (inp : PhoneInput)
    (h : validPhone (normalizePhone (inputRaw inp)) = true) :
    get_phone data inp =
      { replies := ["Введіть ваш Telegram нік (через @):"]
        data := { data with phone := some (normalizePhone (inputRaw inp)) }
        next := .toState .USERNAME
        stored := none } ∧
    (normalizePhone (inputRaw inp)).length = 13 := by
  constructor
  · cases inp with
    | contact pn =>
      simp only [inputRaw] at h
      simp only [get_phone, get_phone_validate]
      rw [if_pos h]
      rfl
    | text s =>
      simp only [inputRaw] at h
      have hc : (pyLower (pyStrip s) == "відміна") = false := by
        cases hb : (pyLower (pyStrip s) == "відміна") with
        | false => rfl
        | true =>
          exfalso
          have he : pyLower (pyStrip s) = "відміна" := eq_of_beq hb
          have hf := validPhone_false_of_cancel s he
          rw [hf] at h
          exact Bool.false_ne_true h
      simp only [get_phone, get_phone_validate, hc, Bool.false_eq_true, if_false,
        normalizePhone_pyStrip]
      rw [if_pos h]
      rfl
  · have h13 : (normalizePhone (inputRaw inp)).length == 13 := by
      unfold validPhone at h
      simp only [Bool.and_eq_true] at h
      exact h.1.2
    exact eq_of_beq h13

/-- Witness for C1: the decorated free-text input
"+38 (050) 123-45-67" normalises to "+380501234567" and advances. -/
theorem get_phone_valid_stores_witness :
    validPhone (normalizePhone (inputRaw (.text "+38 (050) 123-45-67"))) = true ∧
    get_phone ⟨some "Olena", none, none, none⟩ (.text "+38 (050) 123-45-67") =
      { replies := ["Введіть ваш Telegram нік (через @):"]
        data := ⟨some "Olena", some "+380501234567", none, none⟩
        next := .toState .USERNAME
        stored := none } :=
  ⟨by decide,
   (get_phone_valid_stores ⟨some "Olena", none, none, none⟩
      (.text "+38 (050) 123-45-67") (by decide)).1⟩

/-- C6: for every AWAIT_PHONE input that is not the cancellation keyword
and whose normalised form fails the `+380` + 9-digits pattern, the
conversation remains in the phone-collection state, the same re-prompt
message is shown, no accumulated registration field changes, and nothing
is stored; being universally quantified over the input and the
accumulated data, this repeats for every further such input. -/
theorem get_phone_invalid_reprompts (data : RegData) (inp : PhoneInput)
    (hc : isCancelInput inp = false)
    (h : validPhone (normalizePhone (inputRaw inp)) = false) :
    get_phone data inp =
      { replies := [phoneRePrompt]
        data := data
        next := .toState .PHONE
        stored := none } := by
  cases inp with
  | contact pn =>
    simp only [inputRaw] at h
    simp only [get_phone, get_phone_validate]
    rw [if_neg (by rw [h]; exact Bool.false_ne_true)]
  | text s =>
    simp only [inputRaw] at h
    simp only [isCancelInput] at hc
    simp only [get_phone, get_phone_validate, hc, Bool.false_eq_true, if_false,
      normalizePhone_pyStrip]
    rw [if_neg (by rw [h]; exact Bool.false_ne_true)]

/-- Witness for C6: the free-text input "12345" fails the pattern and is
re-prompted with no state or data change. -/
theorem get_phone_invalid_reprompts_witness :
    isCancelInput (.text "12345") = false ∧
    validPhone (normalizePhone (inputRaw (.text "12345"))) = false ∧
    get_phone ⟨some "Olena", none, none, none⟩ (.text "12345") =
      { replies := [phoneRePrompt]
        data := ⟨some "Olena", none, none, none⟩
        next := .toState .PHONE
        stored := none } :=
  ⟨by decide, by decide,
   get_phone_invalid_reprompts ⟨some "Olena", none, none, none⟩ (.text "12345")
     (by decide) (by decide)⟩

/-- C3: from every registration step (AWAIT_NAME, AWAIT_PHONE,
AWAIT_USERNAME, AWAIT_SOURCE), receiving the cancellation keyword
(compared case-insensitively after stripping) ends the conversation with
the cancellation acknowledgment, writes no registration record to the
tabular store, and leaves the accumulated data untouched. -/
theorem registration_cancel_all_steps (data : RegData) (t : String)
    (h : pyLower (pyStrip t) = "відміна") :
    get_name data t = cancel data ∧
    get_phone data (.text t) = cancel data ∧
    get_username data t = cancel data ∧
    get_source data t = cancel data ∧
    (cancel data).next = .endConv ∧
    (cancel data).stored = none ∧
    (cancel data).data = data ∧
    (cancel data).replies = ["Реєстрацію скасовано."] := by
  have hb : (pyLower (pyStrip t) == "відміна") = true := by
    rw [h]
    exact beq_self_eq_true _
  refine ⟨?_, ?_, ?_, ?_, rfl, rfl, rfl, rfl⟩
  · simp only [get_name, hb, if_true]
  · simp only [get_phone, hb, if_true]
  · simp only [get_username, hb, if_true]
  · simp only [get_source, hb, if_true]

/-- Witness for C3: the upper-case keyword with surrounding whitespace
cancels from the name step. -/
theorem registration_cancel_all_steps_witness :
    pyLower (pyStrip " ВІДМІНА ") = "відміна" ∧
    get_name ⟨some "x", none, none, none⟩ " ВІДМІНА " = cancel ⟨some "x", none, none, none⟩ :=
  ⟨by decide,
   (registration_cancel_all_steps ⟨some "x", none, none, none⟩ " ВІДМІНА " (by decide)).1⟩

/-- Counterexample to C2 as stated: "29.02" is invalid for the year
after a leap year, yet with "now" = 2024-03-01 (past Feb 29 of leap year
2024) `get_weekday` returns the real weekday of 2024-02-29 ("четвер"),
not the "unknown day" sentinel — the next-year `ValueError` is swallowed
by `pass` and the current-year date is kept. -/
theorem get_weekday_next_year_invalid_cex :
    isValidDate 2025 2 29 = false ∧
    get_weekday ⟨2024, 3, 1, 0⟩ "29.02" = "четвер" ∧
    ("четвер" : String) ≠ unknownDay := by
  refine ⟨by decide, by decide, by decide⟩

/-- C2 (amended): `get_weekday` parses a `day.month` string, constructs
the date in the current year, rolls forward to next year when that date
is strictly past "now", and returns the "unknown day" sentinel exactly
when parsing fails or the day/month combination is invalid for the
current year; when the current-year date is valid, a weekday name is
always returned — in particular, if the rolled next-year date is
invalid, the current-year date is kept instead of failing. -/
theorem get_weekday_unknown_iff (now : PyDateTime) (s : String) :
    (get_weekday now s = unknownDay ↔
      (match parseDayMonth s with
       | none => True
       | some (d, m) => isValidDate now.year m d = false)) ∧
    (∀ d m : Int, parseDayMonth s = some (d, m) →
      isValidDate now.year m d = true →
      dtLt ⟨now.year, m, d, 0⟩ now = true →
      isValidDate (now.year + 1) m d = true →
      get_weekday now s = weekdayNames (pyWeekday (now.year + 1) m d)) := by
  constructor
  · cases hp : parseDayMonth s with
    | none => simp [get_weekday, hp]
    | some dm =>
      obtain ⟨d, m⟩ := dm
      simp only [get_weekday, hp]
      cases hv : isValidDate now.year m d with
      | false => simp
      | true =>
        rw [if_pos rfl]
        constructor
        · intro hEq
          exact absurd hEq (weekdayNames_pyWeekday_ne _ _ _)
        · intro hFalse
          exact absurd hFalse (by decide)
  · intro d m hp hv hlt hnext
    simp only [get_weekday, hp, hv, if_true, hlt, hnext]

/-- Witness for C2 (amended): event date "18.02" with "now" =
2025-03-01 rolls to 2026-02-18 and returns its weekday. -/
theorem get_weekday_unknown_iff_witness :
    get_weekday ⟨2025, 3, 1, 0⟩ "18.02" = weekdayNames (pyWeekday 2026 2 18) :=
  (get_weekday_unknown_iff ⟨2025, 3, 1, 0⟩ "18.02").2 18 2 (by decide) (by decide)
    (by decide) (by decide)

/-- C9: `get_weekday` constructs the event date at midnight and compares
it to the current timestamp with strict less-than, so a "now" falling on
the event day itself, any time after midnight, already counts as past:
the function returns the weekday of next year's date rather than the
current year's. -/
theorem get_weekday_event_day_rolls (now : PyDateTime) (s : String) (d m : Int)
    (hp : parseDayMonth s = some (d, m))
    (hv : isValidDate now.year m d = true)
    (hm : now.month = m) (hd : now.day = d) (ht : 0 < now.tod)
    (hn : isValidDate (now.year + 1) m d = true) :
    get_weekday now s = weekdayNames (pyWeekday (now.year + 1) m d) := by
  subst hm
  subst hd
  have hlt : dtLt ⟨now.year, now.month, now.day, 0⟩ now = true := by
    simp [dtLt, ht]
  simp only [get_weekday, hp, hv, if_true, hlt, hn]

/-- Witness for C9: "now" one tick after midnight on 2025-10-12 with
event date "12.10" yields the weekday of 2026-10-12. -/
theorem get_weekday_event_day_rolls_witness :
    get_weekday ⟨2025, 10, 12, 1⟩ "12.10" = weekdayNames (pyWeekday 2026 10 12) :=
  get_weekday_event_day_rolls ⟨2025, 10, 12, 1⟩ "12.10" 12 10 (by decide) (by decide)
    (by decide) (by decide) (by decide) (by decide)

end RaveBot
